import Mathlib

/-!
# APIExhibit: a shallow embedding of `src/index.js`

The program is a command-line client of a bus-booking REST service.  Every
command is one JavaScript function; this file embeds each of them as a pure
Lean function over

* the content of `AUTH_FILE` and the module variable `loggedInUser`
  (`State`),
* an oracle that answers the HTTP request a command issues (`Http`),

and returns the new state, the ordered trace of console messages and HTTP
requests, and the exception that escaped the function, if any (`Outcome`).

The values the program handles at run time are JSON values (read from the
file, or received from the service), so the JavaScript operations the source
applies to them (truthiness, property read, `===`, template-literal
conversion, `>`, `split`, `push`, `forEach`) are embedded for every JSON value.

## Boundaries of the embedding

* The file is represented by what `fs.readJsonSync` makes of its text: absent,
  malformed, or the parsed JSON value.  `fs.writeJsonSync` stores
  `JSON.stringify` of a value, whose text parses to `jsonRoundTrip` of it.
* `axios` resolves with `response.data` or rejects with an error that has a
  `message` and, when the service answered, a `response` with `data`.
* `commander` calls an action with the positional arguments its registration
  declares, all strings (`Command`).  Of the command line (`program`) the
  embedding settles the lookup of the first word among the registrations,
  `commander`'s own `help` command, and the call of the action when the
  declared number of arguments follows and none of them looks like an option;
  option parsing and other argument counts belong to `commander`.
* A string is a Lean `String`; unpaired surrogates are not represented.

## Layout

Definitions (the embedding, then the vocabulary of the specification and
sample data) come first; the theorems follow, grouped by claim `C1` .. `C10`.
-/

namespace APIExhibit

/-! ## JSON values and the JavaScript operations the source applies to them -/

/-- A value produced by `JSON.parse`.  A number is kept as the text
`Number.prototype.toString` gives for it (`"0"`, `"-1.5"`, `"1e+21"`,
`"Infinity"` for a literal such as `1e999`), which fixes equality, sign and
truthiness of the number; `-0` is identified with `0`.  An object is the
ordered list of its own properties. -/
inductive Json where
  | null
  | bool (b : Bool)
  | num (text : String)
  | str (s : String)
  | arr (items : List Json)
  | obj (fields : List (String × Json))
  deriving Repr, Inhabited

/-- A `TypeError` raised by the JavaScript engine.  The engine chooses the
wording of `error.message`; the model keeps the cause. -/
inductive TypeError where
  /-- Calling a property that is not a function, e.g. `notes.push`. -/
  | notAFunction (callee : String)
  /-- Reading property `prop` of `null`. -/
  | readOfNull (prop : String)
  /-- An object that has no callable `toString`/`valueOf` yielding a primitive. -/
  | notPrimitive
  deriving Repr, DecidableEq, Inhabited

/-- JavaScript truthiness (`ToBoolean`) of a JSON value. -/
def truthy : Json → Bool
  | .null => false
  | .bool b => b
  | .num t => t != "0" && t != "NaN"
  | .str s => s != ""
  | .arr _ => true
  | .obj _ => true

/-- Truthiness of a value that may be `undefined` (`none`). -/
def truthyVal : Option Json → Bool
  | none => false
  | some v => truthy v

/-- Length of a string in UTF-16 code units (what `.length` of a string is). -/
def utf16Length (s : String) : Nat :=
  (s.data.map (fun c => if c.toNat < 65536 then 1 else 2)).sum

/-- Property read `v.k` on a value that is not `null`, for the property names
the source reads (`role`, `token`, `length`, `routeNumber`, ...): none of them
but `length` is defined on a built-in prototype, so the result is an own
property of an object, the length of an array or string, or `undefined`. -/
def member (v : Json) (k : String) : Option Json :=
  match v with
  | .obj fields => fields.lookup k
  | .arr items => if k = "length" then some (.num (toString items.length)) else none
  | .str s => if k = "length" then some (.num (toString (utf16Length s))) else none
  | _ => none

/-- Property read `v.k`: reading a property of `null` raises a `TypeError`. -/
def getProp (v : Json) (k : String) : Except TypeError (Option Json) :=
  match v with
  | .null => .error (.readOfNull k)
  | _ => .ok (member v k)

/-- Strict equality `v === lit` with a string literal. -/
def strictEqStr (v : Option Json) (lit : String) : Bool :=
  match v with
  | some (.str s) => s == lit
  | _ => false

/-- Whether an object has an own property named `k`. -/
def hasKey (k : String) (fields : List (String × Json)) : Bool :=
  (fields.lookup k).isSome

mutual
/-- Conversion `ToString` of a JSON value, as a template literal applies it:
an array is joined with `","` (`Array.prototype.toString`), a plain object is
`"[object Object]"`, and an object whose own `toString` property shadows the
inherited method (its value, coming from JSON, is not callable) cannot be
converted. -/
def toStr : Json → Except TypeError String
  | .null => .ok "null"
  | .bool b => .ok (if b then "true" else "false")
  | .num t => .ok t
  | .str s => .ok s
  | .arr items =>
    match itemStrs items with
    | .ok parts => .ok (String.intercalate "," parts)
    | .error e => .error e
  | .obj fields =>
    if hasKey "toString" fields then .error .notPrimitive else .ok "[object Object]"
/-- The texts `Array.prototype.join` joins: `null` gives the empty string. -/
def itemStrs : List Json → Except TypeError (List String)
  | [] => .ok []
  | v :: vs =>
    match (match v with | .null => Except.ok "" | _ => toStr v) with
    | .error e => .error e
    | .ok s =>
      match itemStrs vs with
      | .ok rest => .ok (s :: rest)
      | .error e => .error e
end

/-- Conversion `ToString` of a value that may be `undefined`. -/
def toStrVal : Option Json → Except TypeError String
  | none => .ok "undefined"
  | some v => toStr v

/-- Whether a character is white space or a line terminator for
`StringToNumber`. -/
def isStrWhiteSpace (c : Char) : Bool :=
  let n := c.toNat
  (9 ≤ n && n ≤ 13) || n = 32 || n = 160 || n = 5760 || (8192 ≤ n && n ≤ 8202) ||
    n = 8232 || n = 8233 || n = 8239 || n = 8287 || n = 12288 || n = 65279

/-- Value of a run of decimal digits. -/
def digitsValue (ds : List Char) : Nat :=
  ds.foldl (fun n c => 10 * n + (c.toNat - 48)) 0

/-- Whether the decimal `m * 10 ^ e` is a double greater than zero: it is not
rounded to zero, that is, it exceeds half the least subnormal, `2 ^ (-1075)`. -/
def decimalPositive (m : Nat) (e : Int) : Bool :=
  decide (0 < m) && (decide (0 ≤ e) || decide (10 ^ (-e).toNat < m * 2 ^ 1075))

/-- The exponent part of a `StrUnsignedDecimalLiteral`: empty, or `e`/`E`, an
optional sign and at least one digit. -/
def exponentPart (cs : List Char) : Option Int :=
  match cs with
  | [] => some 0
  | c :: r =>
    if c = 'e' || c = 'E' then
      match r with
      | '+' :: ds => if ds ≠ [] && ds.all Char.isDigit then some (digitsValue ds) else none
      | '-' :: ds => if ds ≠ [] && ds.all Char.isDigit then some (-(digitsValue ds : Int)) else none
      | ds => if ds ≠ [] && ds.all Char.isDigit then some (digitsValue ds) else none
    else none

/-- Whether a `StrUnsignedDecimalLiteral` denotes a number greater than zero
(`false` when the text is not such a literal). -/
def unsignedDecimalPositive (cs : List Char) : Bool :=
  if cs = "Infinity".data then true
  else
    let ip := cs.takeWhile Char.isDigit
    let r1 := cs.dropWhile Char.isDigit
    let fp := match r1 with
      | '.' :: r => r.takeWhile Char.isDigit
      | _ => []
    let r2 := match r1 with
      | '.' :: r => r.dropWhile Char.isDigit
      | _ => r1
    if ip = [] && fp = [] then false
    else
      match exponentPart r2 with
      | none => false
      | some x => decimalPositive (digitsValue (ip ++ fp)) (x - fp.length)

/-- Whether all characters are digits of the given radix and one is not `0`. -/
def radixPositive (radix : Nat) (ds : List Char) : Bool :=
  let digit (c : Char) : Option Nat :=
    if c.isDigit then some (c.toNat - 48)
    else if 'a' ≤ c && c ≤ 'f' then some (c.toNat - 87)
    else if 'A' ≤ c && c ≤ 'F' then some (c.toNat - 55)
    else none
  ds ≠ [] && ds.all (fun c => match digit c with | some d => decide (d < radix) | none => false) &&
    ds.any (fun c => c ≠ '0')

/-- Whether `StringToNumber s` is greater than zero. -/
def strPositive (s : String) : Bool :=
  let cs := ((s.data.dropWhile isStrWhiteSpace).reverse.dropWhile isStrWhiteSpace).reverse
  match cs with
  | '0' :: 'x' :: ds => radixPositive 16 ds
  | '0' :: 'X' :: ds => radixPositive 16 ds
  | '0' :: 'o' :: ds => radixPositive 8 ds
  | '0' :: 'O' :: ds => radixPositive 8 ds
  | '0' :: 'b' :: ds => radixPositive 2 ds
  | '0' :: 'B' :: ds => radixPositive 2 ds
  | '+' :: ds => unsignedDecimalPositive ds
  | '-' :: _ => false
  | ds => unsignedDecimalPositive ds

/-- Whether a number, given by its canonical text, is greater than zero. -/
def numPositive (t : String) : Bool :=
  t != "0" && t != "NaN" && !(t.data.head? == some '-')

/-- The comparison `v > 0`: `ToPrimitive` with hint number (an array converts
through `join`, an object through `toString`), then `ToNumber`. -/
def gtZero : Option Json → Except TypeError Bool
  | none => .ok false
  | some .null => .ok false
  | some (.bool b) => .ok b
  | some (.num t) => .ok (numPositive t)
  | some (.str s) => .ok (strPositive s)
  | some v =>
    match toStr v with
    | .ok s => .ok (strPositive s)
    | .error e => .error e

/-- Pieces of a character list between occurrences of `sep`. -/
def splitChars (sep : Char) : List Char → List (List Char)
  | [] => [[]]
  | c :: cs =>
    if c = sep then [] :: splitChars sep cs
    else
      match splitChars sep cs with
      | [] => [[c]]
      | p :: ps => (c :: p) :: ps

/-- The call `s.split(sep)` with a one-character separator. -/
def split (sep : Char) (s : String) : List String :=
  (splitChars sep s.data).map String.mk

mutual
/-- The value `JSON.parse(JSON.stringify(v))`: `JSON.stringify` writes a
non-finite number as `null`, everything else reads back as written. -/
def jsonRoundTrip : Json → Json
  | .null => .null
  | .bool b => .bool b
  | .num t => if t = "Infinity" ∨ t = "-Infinity" ∨ t = "NaN" then .null else .num t
  | .str s => .str s
  | .arr items => .arr (jsonRoundTripItems items)
  | .obj fields => .obj (jsonRoundTripFields fields)
/-- Componentwise `jsonRoundTrip` on the items of an array. -/
def jsonRoundTripItems : List Json → List Json
  | [] => []
  | v :: vs => jsonRoundTrip v :: jsonRoundTripItems vs
/-- Componentwise `jsonRoundTrip` on the properties of an object. -/
def jsonRoundTripFields : List (String × Json) → List (String × Json)
  | [] => []
  | (k, v) :: fs => (k, jsonRoundTrip v) :: jsonRoundTripFields fs
end

/-! ## Requests, console messages, the session file -/

/-- The constant `BASE_URL`. -/
def BASE_URL : String := "https://ntc-booking-system-1.onrender.com/api"

/-- HTTP methods the client uses. -/
inductive Method where
  | GET | POST | PUT | DELETE
  deriving Repr, DecidableEq, Inhabited

/-- One call of `axios`: method, URL, request body, query parameters
(`params`) and the `Authorization` header. -/
structure Request where
  method : Method
  url : String
  data : Option Json
  params : List (String × String)
  authorization : Option String
  deriving Repr, Inhabited

/-- The rejection of an `axios` call: `error.response.data` when the service
answered, and `error.message`. -/
structure HttpError where
  response : Option Json
  message : String
  deriving Repr, Inhabited

/-- The result of awaiting an `axios` call: `response.data`, or a rejection. -/
inductive HttpResult where
  | ok (data : Json)
  | fail (e : HttpError)
  deriving Repr, Inhabited

/-- The remote service and the transport, as seen from the client. -/
abbrev Http := Request → HttpResult

/-- An argument of `console.log` / `console.error`: a value, or the message of
an engine-raised `TypeError`. -/
inductive Shown where
  | value (v : Json)
  | engineMessage (e : TypeError)
  deriving Repr, Inhabited

/-- A string argument of `console.log` / `console.error`. -/
def text (s : String) : Shown := .value (.str s)

/-- What a command does that can be observed, in order. -/
inductive Event where
  | log (args : List Shown)
  | error (args : List Shown)
  | request (r : Request)
  deriving Repr, Inhabited

/-- The content of `AUTH_FILE` when it exists: text that `JSON.parse` rejects,
or text that parses to `v`. -/
inductive FileContent where
  | malformed
  | json (v : Json)
  deriving Repr, Inhabited

/-- The state a command runs in: the file `AUTH_FILE` (`none` when it does not
exist) and the module variable `loggedInUser`. -/
structure State where
  AUTH_FILE : Option FileContent
  loggedInUser : Json
  deriving Repr, Inhabited

/-- The result of running one action: the state it leaves, what it printed and
requested, and the exception that escaped it, if any. -/
structure Outcome where
  state : State
  trace : List Event
  threw : Option TypeError
  deriving Repr, Inhabited

/-- The requests in a trace, in order. -/
def requests : List Event → List Request
  | [] => []
  | .request r :: evs => r :: requests evs
  | _ :: evs => requests evs

/-- The call `fs.readJsonSync(AUTH_FILE, { throws: false })` on an existing
file: `null` when the text does not parse. -/
def readJsonSync : FileContent → Json
  | .malformed => .null
  | .json v => v

/-- The call `fs.writeJsonSync(AUTH_FILE, v)`: the file now holds the text
`JSON.stringify(v)`. -/
def writeJsonSync (v : Json) (s : State) : State :=
  { s with AUTH_FILE := some (.json (jsonRoundTrip v)) }

/-- Module start (lines 13-17): `loggedInUser` is `null`, or what the file
holds when it exists. -/
def loadLoggedInUser (file : Option FileContent) : Json :=
  match file with
  | none => .null
  | some c => readJsonSync c

/-- The state of a freshly started process. -/
def startup (file : Option FileContent) : State :=
  { AUTH_FILE := file, loggedInUser := loadLoggedInUser file }

/-- The function `saveLoggedInUser(user)`. -/
def saveLoggedInUser (user : Json) (s : State) : State :=
  writeJsonSync user { s with loggedInUser := user }

/-- The function `isAdmin()`: the value of
`loggedInUser && loggedInUser.role === 'Admin'`. -/
def isAdmin (s : State) : Json :=
  if truthy s.loggedInUser then .bool (strictEqStr (member s.loggedInUser "role") "Admin")
  else s.loggedInUser

/-- The guard `!loggedInUser || !loggedInUser.token` of the commands that need
a login. -/
def notLoggedIn (s : State) : Bool :=
  !truthy s.loggedInUser || !truthyVal (member s.loggedInUser "token")

/-- The template literal `Bearer ${loggedInUser.token}`. -/
def bearer (s : State) : Except TypeError String :=
  match getProp s.loggedInUser "token" with
  | .error e => .error e
  | .ok token =>
    match toStrVal token with
    | .error e => .error e
    | .ok t => .ok ("Bearer " ++ t)

/-- What is thrown inside a `try` block: the rejection of the `axios` call, or
a `TypeError` raised by the engine. -/
inductive Thrown where
  | http (e : HttpError)
  | engine (t : TypeError)
  deriving Repr, Inhabited

/-- The expression `error.response ? error.response.data : error.message` of
every `catch` block. -/
def catchArg : Thrown → Shown
  | .http e =>
    match e.response with
    | some d => .value d
    | none => .value (.str e.message)
  | .engine t => .engineMessage t

/-- The common shape of the remote commands,
`try { response = await axios...(req); success } catch (error) { console.error(tag, ...) }`:
building the request may raise, the call may be rejected, and the success
branch may raise after printing part of its output. -/
def tryCall (s : State) (http : Http) (tag : String) (req : Except TypeError Request)
    (success : Json → State × List Event × Option TypeError) : Outcome :=
  match req with
  | .error t => ⟨s, [.error [text tag, catchArg (.engine t)]], none⟩
  | .ok r =>
    match http r with
    | .fail e => ⟨s, [.request r, .error [text tag, catchArg (.http e)]], none⟩
    | .ok data =>
      match success data with
      | (s', evs, none) => ⟨s', .request r :: evs, none⟩
      | (s', evs, some t) =>
        ⟨s', .request r :: (evs ++ [.error [text tag, catchArg (.engine t)]]), none⟩

/-- The body of `items.forEach((x, index) => console.log(line))`: one message
per item, stopping at the first item whose line raises. -/
def forEachItems (line : Nat → Json → Except TypeError String) :
    List Json → Nat → List Event × Option TypeError
  | [], _ => ([], none)
  | x :: xs, i =>
    match line i x with
    | .error t => ([], some t)
    | .ok l =>
      match forEachItems line xs (i + 1) with
      | (evs, t) => (.log [text l] :: evs, t)

/-- The call `v.forEach(...)` on any value: only an array has the method. -/
def forEach (callee : String) (v : Json) (line : Nat → Json → Except TypeError String) :
    List Event × Option TypeError :=
  match v with
  | .arr items => forEachItems line items 0
  | .null => ([], some (.readOfNull "forEach"))
  | _ => ([], some (.notAFunction callee))

/-- A template-literal hole `${x.k}`. -/
def hole (x : Json) (k : String) : Except TypeError String :=
  match getProp x k with
  | .error e => .error e
  | .ok v => toStrVal v

/-- Concatenation of the pieces of a template literal, in evaluation order. -/
def template : List (Except TypeError String) → Except TypeError String
  | [] => .ok ""
  | .error e :: _ => .error e
  | .ok s :: rest =>
    match template rest with
    | .error e => .error e
    | .ok t => .ok (s ++ t)

/-- An object literal whose properties are string arguments. -/
def strFields (fs : List (String × String)) : List (String × Json) :=
  fs.map (fun kv => (kv.1, Json.str kv.2))

/-! ## The commands -/

/-- The function `registerUser(name, email, password, role)`. -/
def registerUser (name email password role : String) (s : State) (http : Http) : Outcome :=
  tryCall s http "Error registering user:"
    (.ok { method := .POST, url := BASE_URL ++ "/users/register",
           data := some (.obj (strFields
             [("name", name), ("email", email), ("password", password), ("role", role)])),
           params := [], authorization := none })
    (fun data => (s, [.log [text "User registered successfully:", .value data]], none))

/-- The request of `loginUser`: `axios.post(BASE_URL/users/login, { email, password })`. -/
def loginRequest (email password : String) : Request :=
  { method := .POST, url := BASE_URL ++ "/users/login",
    data := some (.obj (strFields [("email", email), ("password", password)])),
    params := [], authorization := none }

/-- The function `loginUser(email, password)`. -/
def loginUser (email password : String) (s : State) (http : Http) : Outcome :=
  tryCall s http "Error logging in:" (.ok (loginRequest email password))
    (fun data =>
      (saveLoggedInUser data s, [.log [text "User logged in successfully:", .value data]], none))

/-- The function `addTransportRoute(routeNumber, routeName, startingPoint, endingPoint, distance)`. -/
def addTransportRoute (routeNumber routeName startingPoint endingPoint distance : String)
    (s : State) (http : Http) : Outcome :=
  if !truthy (isAdmin s) then
    ⟨s, [.error [text "Error: You must be an admin to add a transport route."]], none⟩
  else
    tryCall s http "Error adding route:"
      (match bearer s with
        | .error e => .error e
        | .ok auth =>
          .ok { method := .POST, url := BASE_URL ++ "/admin/routes",
                data := some (.obj (strFields
                  [("routeNumber", routeNumber), ("routeName", routeName),
                   ("startingPoint", startingPoint), ("endingPoint", endingPoint),
                   ("distance", distance)])),
                params := [], authorization := some auth })
      (fun data => (s, [.log [text "Transport route added successfully:", .value data]], none))

/-- The line `viewRoutes` prints for the route at `index`. -/
def routeLine (index : Nat) (route : Json) : Except TypeError String :=
  template
    [.ok (toString (index + 1)), .ok ". Route Number: ", hole route "routeNumber",
     .ok ", Name: ", hole route "routeName", .ok ", Start: ", hole route "startingPoint",
     .ok ", End: ", hole route "endingPoint", .ok ", Distance: ", hole route "distance"]

/-- The function `viewRoutes()`. -/
def viewRoutes (s : State) (http : Http) : Outcome :=
  if !truthy (isAdmin s) then
    ⟨s, [.error [text "Error: You must be an admin to view bus routes."]], none⟩
  else
    tryCall s http "Error fetching routes:"
      (match bearer s with
        | .error e => .error e
        | .ok auth =>
          .ok { method := .GET, url := BASE_URL ++ "/admin/routes", data := none,
                params := [], authorization := some auth })
      (fun data =>
        match forEach "response.data.forEach" data routeLine with
        | (evs, t) => (s, .log [text "Bus Routes Schedule:"] :: evs, t))

/-- The function `addBuses(...)` (lines 97-114).  No command is registered
with it. -/
def addBuses (busNumber driverName conductorName operatorname bustype capacity price
    availableSeats registrationNumber routeNumber : String) (s : State) (http : Http) : Outcome :=
  if !truthy (isAdmin s) then
    ⟨s, [.error [text "Error: You must be an admin to add a transport route."]], none⟩
  else
    tryCall s http "Error adding bus:"
      (match bearer s with
        | .error e => .error e
        | .ok auth =>
          .ok { method := .POST, url := BASE_URL ++ "/admin/routes",
                data := some (.obj (strFields
                  [("busNumber", busNumber), ("driverName", driverName),
                   ("conductorName", conductorName), ("operatorname", operatorname),
                   ("bustype", bustype), ("capacity", capacity), ("price", price),
                   ("availableSeats", availableSeats),
                   ("registrationNumber", registrationNumber), ("routeNumber", routeNumber)])),
                params := [], authorization := some auth })
      (fun data => (s, [.log [text "Bus added successfully:", .value data]], none))

/-- The hole `${bus.route ? bus.route.routeName : 'Unassigned'}`. -/
def routeNameHole (bus : Json) : Except TypeError String :=
  match getProp bus "route" with
  | .error e => .error e
  | .ok none => .ok "Unassigned"
  | .ok (some route) => if truthy route then hole route "routeName" else .ok "Unassigned"

/-- The line `viewBusesWithRoutes` prints for the bus at `index`. -/
def busWithRouteLine (index : Nat) (bus : Json) : Except TypeError String :=
  template
    [.ok (toString (index + 1)), .ok ". Bus Number: ", hole bus "busNumber",
     .ok ", Driver: ", hole bus "driverName", .ok ", Conductor: ", hole bus "conductorName",
     .ok ", Operator: ", hole bus "operatorName", .ok ", Type: ", hole bus "bustype",
     .ok ", Capacity: ", hole bus "capacity", .ok ", Price: ", hole bus "price",
     .ok ", Available Seats: ", hole bus "availableSeats",
     .ok ", Registration Number: ", hole bus "registrationNumber",
     .ok ", Route: ", routeNameHole bus]

/-- The function `viewBusesWithRoutes()`. -/
def viewBusesWithRoutes (s : State) (http : Http) : Outcome :=
  if !truthy (isAdmin s) then
    ⟨s, [.error [text "Error: You must be an admin to view buses and their routes."]], none⟩
  else
    tryCall s http "Error fetching buses with routes:"
      (match bearer s with
        | .error e => .error e
        | .ok auth =>
          .ok { method := .GET, url := BASE_URL ++ "/admin/buses", data := none,
                params := [], authorization := some auth })
      (fun data =>
        match forEach "response.data.forEach" data busWithRouteLine with
        | (evs, t) => (s, .log [text "Buses with Assigned Routes:"] :: evs, t))

/-- The line `viewAvailableBuses` prints for the bus at `index`. -/
def availableBusLine (index : Nat) (bus : Json) : Except TypeError String :=
  template
    [.ok (toString (index + 1)), .ok ". Bus Number: ", hole bus "busNumber",
     .ok ", Driver: ", hole bus "driverName", .ok ", Conductor: ", hole bus "conductorName",
     .ok ", Type: ", hole bus "bustype", .ok ", Capacity: ", hole bus "capacity",
     .ok ", Price: ", hole bus "price", .ok ", Available Seats: ", hole bus "availableSeats",
     .ok ", Registration Number: ", hole bus "registrationNumber",
     .ok ", Departure Time: ", hole bus "departureTime"]

/-- The function `viewAvailableBuses(departurePoint, arrivalPoint, date)`. -/
def viewAvailableBuses (departurePoint arrivalPoint date : String) (s : State) (http : Http) :
    Outcome :=
  if notLoggedIn s then
    ⟨s, [.error [text "Error: You must be logged in to view available buses."]], none⟩
  else
    tryCall s http "Error fetching available buses:"
      (match bearer s with
        | .error e => .error e
        | .ok auth =>
          .ok { method := .GET, url := BASE_URL ++ "/commuter/searchbus", data := none,
                params := [("departurePoint", departurePoint), ("arrivalPoint", arrivalPoint),
                           ("date", date)],
                authorization := some auth })
      (fun data =>
        match forEach "response.data.forEach" data availableBusLine with
        | (evs, t) =>
          (s, .log [text ("Available Buses from " ++ departurePoint ++ " to " ++ arrivalPoint ++
              " on " ++ date ++ ":")] :: evs, t))

/-- The function `bookBus(bookingNumber, userName, seatCount, bookingDate, scheduleToken, bookingToken)`. -/
def bookBus (bookingNumber userName seatCount bookingDate scheduleToken bookingToken : String)
    (s : State) (http : Http) : Outcome :=
  if notLoggedIn s then
    ⟨s, [.error [text "Error: You must be logged in to book a bus."]], none⟩
  else
    tryCall s http "Error booking bus:"
      (match bearer s with
        | .error e => .error e
        | .ok auth =>
          .ok { method := .POST, url := BASE_URL ++ "/commuter/bookbus",
                data := some (.obj (strFields
                  [("bookingNumber", bookingNumber), ("userName", userName),
                   ("seatCount", seatCount), ("bookingDate", bookingDate),
                   ("scheduleToken", scheduleToken), ("bookingToken", bookingToken)])),
                params := [], authorization := some auth })
      (fun data => (s, [.log [text "Bus booked successfully:", .value data]], none))

/-- The function `viewSchedules()`. -/
def viewSchedules (s : State) (http : Http) : Outcome :=
  tryCall s http "Error viewing schedules:"
    (.ok { method := .GET, url := BASE_URL ++ "/schedules", data := none, params := [],
           authorization := none })
    (fun data => (s, [.log [text "Available schedules:", .value data]], none))

/-- The function `addBus(...)` (lines 196-224), the action of `add-bus`. -/
def addBus (busNumber driverName conductorName operatorName bustype capacity price
    availableSeats registrationNumber routeNumber : String) (s : State) (http : Http) : Outcome :=
  if !truthy (isAdmin s) then
    ⟨s, [.error [text "Error: You must be an admin to add a bus."]], none⟩
  else
    tryCall s http "Error adding bus:"
      (match bearer s with
        | .error e => .error e
        | .ok auth =>
          .ok { method := .POST, url := BASE_URL ++ "/admin/buses",
                data := some (.obj (strFields
                  [("busNumber", busNumber), ("driverName", driverName),
                   ("conductorName", conductorName), ("operatorName", operatorName),
                   ("bustype", bustype), ("capacity", capacity), ("price", price),
                   ("availableSeats", availableSeats),
                   ("registrationNumber", registrationNumber), ("routeNumber", routeNumber)])),
                params := [], authorization := some auth })
      (fun data => (s, [.log [text "Bus added successfully:", .value data]], none))

/-- The positional arguments of `add-schedule`, in order. -/
structure ScheduleArgs where
  routeNumber : String
  routeName : String
  registrationNumber : String
  operatorName : String
  busType : String
  ticketPrice : String
  capacity : String
  availableSeats : String
  departurePoint : String
  departureTime : String
  arrivalPoint : String
  arrivalTime : String
  stops : String
  startDate : String
  endDate : String
  scheduleToken : String
  isActive : String
  deriving Repr, DecidableEq, Inhabited

/-- The request body `addBusSchedule` builds (lines 235-246). -/
def scheduleBody (a : ScheduleArgs) : Json :=
  .obj
    [("route", .obj (strFields [("routeNumber", a.routeNumber), ("routeName", a.routeName)])),
     ("bus", .obj (strFields
        [("registrationNumber", a.registrationNumber), ("operatorName", a.operatorName),
         ("busType", a.busType), ("ticketPrice", a.ticketPrice), ("capacity", a.capacity),
         ("availableSeats", a.availableSeats)])),
     ("departurePoint", .str a.departurePoint),
     ("departureTime", .str a.departureTime),
     ("arrivalPoint", .str a.arrivalPoint),
     ("arrivalTime", .str a.arrivalTime),
     ("stops", .arr ((split ',' a.stops).map Json.str)),
     ("scheduleValid", .obj (strFields [("startDate", a.startDate), ("endDate", a.endDate)])),
     ("scheduleToken", .str a.scheduleToken),
     ("isActive", .bool (a.isActive == "true"))]

/-- The function `addBusSchedule(...)`. -/
def addBusSchedule (a : ScheduleArgs) (s : State) (http : Http) : Outcome :=
  if notLoggedIn s then
    ⟨s, [.error [text "Error: You must be logged in to add a bus schedule."]], none⟩
  else
    tryCall s http "Error adding bus schedule:"
      (match bearer s with
        | .error e => .error e
        | .ok auth =>
          .ok { method := .POST, url := BASE_URL ++ "/operator/schedules",
                data := some (scheduleBody a), params := [], authorization := some auth })
      (fun data => (s, [.log [text "Bus schedule added successfully:", .value data]], none))

/-- The function `updateBusSchedule(scheduleToken, departurePoint, departureTime, arrivalPoint, arrivalTime, stops)`. -/
def updateBusSchedule (scheduleToken departurePoint departureTime arrivalPoint arrivalTime
    stops : String) (s : State) (http : Http) : Outcome :=
  if notLoggedIn s then
    ⟨s, [.error [text "Error: You must be logged in to update a bus schedule."]], none⟩
  else
    tryCall s http "Error updating bus schedule:"
      (match bearer s with
        | .error e => .error e
        | .ok auth =>
          .ok { method := .PUT, url := BASE_URL ++ ("/operator/schedules/" ++ scheduleToken),
                data := some (.obj
                  [("departurePoint", .str departurePoint), ("departureTime", .str departureTime),
                   ("arrivalPoint", .str arrivalPoint), ("arrivalTime", .str arrivalTime),
                   ("stops", .arr ((split ',' stops).map Json.str))]),
                params := [], authorization := some auth })
      (fun data => (s, [.log [text "Bus schedule updated successfully:", .value data]], none))

/-- The function `deleteBusSchedule(scheduleToken)`. -/
def deleteBusSchedule (scheduleToken : String) (s : State) (http : Http) : Outcome :=
  if notLoggedIn s then
    ⟨s, [.error [text "Error: You must be logged in to delete a bus schedule."]], none⟩
  else
    tryCall s http "Error deleting bus schedule:"
      (match bearer s with
        | .error e => .error e
        | .ok auth =>
          .ok { method := .DELETE, url := BASE_URL ++ ("/operator/schedules/" ++ scheduleToken),
                data := none, params := [], authorization := some auth })
      (fun data => (s, [.log [text "Bus schedule deleted successfully:", .value data]], none))

/-- The function `loadNotes()`: the value `readJsonSync(...) || []` when the
file exists, else `[]`. -/
def loadNotes (s : State) : Json :=
  match s.AUTH_FILE with
  | some c => if truthy (readJsonSync c) then readJsonSync c else .arr []
  | none => .arr []

/-- The function `saveNotes(notes)`. -/
def saveNotes (notes : Json) (s : State) : State :=
  writeJsonSync notes s

/-- The function `addNote(content)`.  The call `notes.push(content)` raises
when the loaded value is not an array; nothing catches it. -/
def addNote (content : String) (s : State) : Outcome :=
  match loadNotes s with
  | .arr items => ⟨saveNotes (.arr (items ++ [.str content])) s, [.log [text "Note added!"]], none⟩
  | .null => ⟨s, [], some (.readOfNull "push")⟩
  | _ => ⟨s, [], some (.notAFunction "notes.push")⟩

/-- The line `viewNotes` prints for the note at `index`. -/
def noteLine (index : Nat) (note : Json) : Except TypeError String :=
  template [.ok (toString (index + 1)), .ok ". ", toStr note]

/-- The condition `notes.length > 0`: the length of an array or of a string is
a number, an object has the `length` it was given, if any, and any other value
has none (`undefined > 0` is false). -/
def lengthPositive (notes : Json) : Except TypeError Bool :=
  match notes with
  | .null => .error (.readOfNull "length")
  | .arr items => .ok (decide (0 < items.length))
  | .str s => .ok (decide (0 < utf16Length s))
  | .obj fields => gtZero (fields.lookup "length")
  | _ => .ok false

/-- The function `viewNotes()`.  Nothing catches what `notes.length > 0` or
`notes.forEach` raise. -/
def viewNotes (s : State) : Outcome :=
  match lengthPositive (loadNotes s) with
  | .error e => ⟨s, [], some e⟩
  | .ok true =>
    match forEach "notes.forEach" (loadNotes s) noteLine with
    | (evs, t) => ⟨s, .log [text "Notes:"] :: evs, t⟩
  | .ok false => ⟨s, [.log [text "No notes available."]], none⟩

/-! ## The command line -/

/-- One invocation of the program: the registered command and its positional
arguments. -/
inductive Command where
  | register (name email password role : String)
  | login (email password : String)
  | routes (routeNumber routeName startingPoint endingPoint distance : String)
  | viewRoutes
  | addBus (busNumber driverName conductorName operatorName bustype capacity price
      availableSeats registrationNumber routeNumber : String)
  | viewBuses
  | viewAvailableBuses (departurePoint arrivalPoint date : String)
  | bookBus (bookingNumber userName seatCount bookingDate scheduleToken bookingToken : String)
  | addSchedule (a : ScheduleArgs)
  | updateSchedule (scheduleToken departurePoint departureTime arrivalPoint arrivalTime
      stops : String)
  | deleteSchedule (scheduleToken : String)
  | viewSchedules
  | addNote (content : String)
  | viewNotes
  deriving Repr, DecidableEq, Inhabited

/-- The declarations passed to `program.command` (lines 329-399), in order. -/
def registrations : List String :=
  ["register <name> <email> <password> <role>",
   "login <email> <password>",
   "routes <routeNumber> <routeName> <startingPoint> <endingPoint> <distance>",
   "view-routes",
   "add-bus <busNumber> <driverName> <conductorName> <operatorName> <bustype> <capacity> <price> <availableSeats> <registrationNumber> <routeNumber>",
   "view-buses",
   "view-available-buses <departurePoint> <arrivalPoint> <date>",
   "book-bus <bookingNumber> <userName> <seatCount> <bookingDate> <scheduleToken> <bookingToken>",
   "add-schedule <routeNumber> <routeName> <registrationNumber> <operatorName> <busType> <ticketPrice> <capacity> <availableSeats> <departurePoint> <departureTime> <arrivalPoint> <arrivalTime> <stops> <startDate> <endDate> <scheduleToken> <isActive>",
   "update-schedule <scheduleToken> <departurePoint> <departureTime> <arrivalPoint> <arrivalTime> <stops>",
   "delete-schedule <scheduleToken>",
   "view-schedules",
   "add-note <content>",
   "view-notes"]

/-- The name a declaration registers: its first word. -/
def commandName (declaration : String) : String :=
  String.mk (declaration.data.takeWhile (fun ch => ch != ' '))

/-- The number of required arguments `<...>` a declaration lists. -/
def declaredArity (declaration : String) : Nat :=
  (declaration.data.filter (fun ch => ch == '<')).length

/-- The names the code registers with `program.command`, in order. -/
def registeredNames : List String :=
  registrations.map commandName

/-- Whether `commander` may read a word as an option instead of an operand:
more than one character, the first a dash. -/
def looksLikeOption (word : String) : Bool :=
  match word.data with
  | '-' :: _ :: _ => true
  | _ => false

/-- The action bound to each registered name with `.action(...)`, called with
the declared positional arguments. -/
def bindAction (name : String) (args : List String) : Option Command :=
  if name = "register" then
    match args with
    | [name, email, password, role] => some (.register name email password role)
    | _ => none
  else if name = "login" then
    match args with
    | [email, password] => some (.login email password)
    | _ => none
  else if name = "routes" then
    match args with
    | [routeNumber, routeName, startingPoint, endingPoint, distance] =>
      some (.routes routeNumber routeName startingPoint endingPoint distance)
    | _ => none
  else if name = "view-routes" then
    match args with
    | [] => some .viewRoutes
    | _ => none
  else if name = "add-bus" then
    match args with
    | [busNumber, driverName, conductorName, operatorName, bustype, capacity, price,
        availableSeats, registrationNumber, routeNumber] =>
      some (.addBus busNumber driverName conductorName operatorName bustype capacity price
        availableSeats registrationNumber routeNumber)
    | _ => none
  else if name = "view-buses" then
    match args with
    | [] => some .viewBuses
    | _ => none
  else if name = "view-available-buses" then
    match args with
    | [departurePoint, arrivalPoint, date] =>
      some (.viewAvailableBuses departurePoint arrivalPoint date)
    | _ => none
  else if name = "book-bus" then
    match args with
    | [bookingNumber, userName, seatCount, bookingDate, scheduleToken, bookingToken] =>
      some (.bookBus bookingNumber userName seatCount bookingDate scheduleToken bookingToken)
    | _ => none
  else if name = "add-schedule" then
    match args with
    | [routeNumber, routeName, registrationNumber, operatorName, busType, ticketPrice,
        capacity, availableSeats, departurePoint, departureTime, arrivalPoint, arrivalTime,
        stops, startDate, endDate, scheduleToken, isActive] =>
      some (.addSchedule ⟨routeNumber, routeName, registrationNumber, operatorName, busType,
        ticketPrice, capacity, availableSeats, departurePoint, departureTime, arrivalPoint,
        arrivalTime, stops, startDate, endDate, scheduleToken, isActive⟩)
    | _ => none
  else if name = "update-schedule" then
    match args with
    | [scheduleToken, departurePoint, departureTime, arrivalPoint, arrivalTime, stops] =>
      some (.updateSchedule scheduleToken departurePoint departureTime arrivalPoint
        arrivalTime stops)
    | _ => none
  else if name = "delete-schedule" then
    match args with
    | [scheduleToken] => some (.deleteSchedule scheduleToken)
    | _ => none
  else if name = "view-schedules" then
    match args with
    | [] => some .viewSchedules
    | _ => none
  else if name = "add-note" then
    match args with
    | [content] => some (.addNote content)
    | _ => none
  else if name = "view-notes" then
    match args with
    | [] => some .viewNotes
    | _ => none
  else none

/-- What `program.parse(process.argv)` does with the words of a command
line. -/
inductive Dispatch where
  /-- The action registered for the command is called with these arguments. -/
  | action (c : Command)
  /-- The usage is printed by `commander` (no command given, or its implicit
  `help` command); no registered action is called. -/
  | help
  /-- The first word is no registered command; no registered action is
  called. -/
  | unknownCommand
  /-- The words include what may be an option, or the number of arguments is
  not the declared one: what happens is decided by `commander` and is not part
  of the embedding. -/
  | framework
  deriving Repr, DecidableEq, Inhabited

/-- The call `program.parse(process.argv)` (line 401) on the words after the
script name: the first word is looked up among the registrations; the action
is called when the declared number of arguments follows and no word looks like
an option. -/
def program : List String → Dispatch
  | [] => .help
  | name :: args =>
    if looksLikeOption name then .framework
    else
      match registrations.find? (fun d => commandName d == name) with
      | some declaration =>
        if args.any looksLikeOption then .framework
        else if args.length != declaredArity declaration then .framework
        else
          match bindAction name args with
          | some c => .action c
          | none => .framework
      | none => if name = "help" then .help else .unknownCommand

/-- The action a command runs (the function passed to `.action`). -/
def exec (c : Command) (s : State) (http : Http) : Outcome :=
  match c with
  | .register name email password role => registerUser name email password role s http
  | .login email password => loginUser email password s http
  | .routes routeNumber routeName startingPoint endingPoint distance =>
    addTransportRoute routeNumber routeName startingPoint endingPoint distance s http
  | .viewRoutes => viewRoutes s http
  | .addBus busNumber driverName conductorName operatorName bustype capacity price
      availableSeats registrationNumber routeNumber =>
    addBus busNumber driverName conductorName operatorName bustype capacity price
      availableSeats registrationNumber routeNumber s http
  | .viewBuses => viewBusesWithRoutes s http
  | .viewAvailableBuses departurePoint arrivalPoint date =>
    viewAvailableBuses departurePoint arrivalPoint date s http
  | .bookBus bookingNumber userName seatCount bookingDate scheduleToken bookingToken =>
    bookBus bookingNumber userName seatCount bookingDate scheduleToken bookingToken s http
  | .addSchedule a => addBusSchedule a s http
  | .updateSchedule scheduleToken departurePoint departureTime arrivalPoint arrivalTime stops =>
    updateBusSchedule scheduleToken departurePoint departureTime arrivalPoint arrivalTime stops
      s http
  | .deleteSchedule scheduleToken => deleteBusSchedule scheduleToken s http
  | .viewSchedules => viewSchedules s http
  | .addNote content => addNote content s
  | .viewNotes => viewNotes s

/-- One run of the program: the module is loaded (reading `AUTH_FILE`), then
the command's action runs. -/
def run (c : Command) (file : Option FileContent) (http : Http) : Outcome :=
  exec c (startup file) http

/-- The content of `AUTH_FILE` after running the commands one after the other,
each in a process of its own. -/
def fileAfter (cs : List Command) (file : Option FileContent) (http : Http) :
    Option FileContent :=
  cs.foldl (fun f c => (run c f http).state.AUTH_FILE) file

/-! ## Vocabulary of the specification -/

/-- The commands that need a login or the Admin role: rows `add-route` to
`delete-schedule` of the specification's command table. -/
def Command.requiresAuth : Command → Bool
  | .routes .. => true
  | .viewRoutes => true
  | .addBus .. => true
  | .viewBuses => true
  | .viewAvailableBuses .. => true
  | .bookBus .. => true
  | .addSchedule _ => true
  | .updateSchedule .. => true
  | .deleteSchedule _ => true
  | _ => false

/-- The commands the specification's command table gates on the Admin role. -/
def Command.adminGated : Command → Bool
  | .routes .. => true
  | .viewRoutes => true
  | .addBus .. => true
  | .viewBuses => true
  | _ => false

/-- The commands that call the remote service: all but `add-note` and
`view-notes`. -/
def Command.isRemote : Command → Bool
  | .addNote _ => false
  | .viewNotes => false
  | _ => true

/-- The local gate the code puts before the request of a command: `isAdmin()`
for the Admin commands, a session with a truthy token for the other commands
that need a login, none for `register`, `login` and `view-schedules`. -/
def Command.gateOpen (c : Command) (s : State) : Bool :=
  if c.adminGated then truthy (isAdmin s)
  else if c.requiresAuth then !notLoggedIn s
  else true

/-- Whether a console message is one of the local precondition errors: they
all start with `Error: You must be `. -/
def preconditionError (msg : String) : Bool :=
  "Error: You must be ".data.isPrefixOf msg.data

/-- The subcommand names of the specification's command table (section 4.2). -/
def specCommandTable : List String :=
  ["register", "login", "add-route", "view-routes", "add-bus", "view-buses",
   "view-available-buses", "book-bus", "add-schedule", "update-schedule", "delete-schedule",
   "view-schedules", "add-note", "view-notes"]

/-- The method and path the specification's command table lists for a remote
command (`:scheduleToken` replaced by the argument); `none` for the two local
commands. -/
def specEndpoint : Command → Option (Method × String)
  | .register .. => some (.POST, "/users/register")
  | .login .. => some (.POST, "/users/login")
  | .routes .. => some (.POST, "/admin/routes")
  | .viewRoutes => some (.GET, "/admin/routes")
  | .addBus .. => some (.POST, "/admin/buses")
  | .viewBuses => some (.GET, "/admin/buses")
  | .viewAvailableBuses .. => some (.GET, "/commuter/searchbus")
  | .bookBus .. => some (.POST, "/commuter/bookbus")
  | .addSchedule _ => some (.POST, "/operator/schedules")
  | .updateSchedule scheduleToken .. => some (.PUT, "/operator/schedules/" ++ scheduleToken)
  | .deleteSchedule scheduleToken => some (.DELETE, "/operator/schedules/" ++ scheduleToken)
  | .viewSchedules => some (.GET, "/schedules")
  | .addNote _ => none
  | .viewNotes => none

/-- A session as the specification's data model describes it. -/
structure Session where
  name : String
  email : String
  role : String
  token : String
  deriving Repr, DecidableEq, Inhabited

/-- The JSON object of a session. -/
def Session.toJson (x : Session) : Json :=
  .obj (strFields [("name", x.name), ("email", x.email), ("role", x.role), ("token", x.token)])

/-- The payload a `catch` block prints for a rejected call: the service's
error payload when there is a response, else the transport error message. -/
def specErrorPayload (e : HttpError) : Shown :=
  match e.response with
  | some d => .value d
  | none => .value (.str e.message)

/-! ## Sample data -/

/-- An Admin session. -/
def adminSession : Session :=
  { name := "Ann", email := "ann@example.com", role := "Admin", token := "tok1" }

/-- An Operator session. -/
def operatorSession : Session :=
  { name := "Bob", email := "bob@example.com", role := "Operator", token := "tok2" }

/-- A service that answers every request with `null`. -/
def httpNull : Http := fun _ => .ok .null

/-- A service that answers every request with the Admin session. -/
def httpAdmin : Http := fun _ => .ok adminSession.toJson

/-- A transport that fails every request without a response. -/
def httpDown : Http := fun _ => .fail { response := none, message := "Network Error" }

/-- Arguments of `add-schedule` with stops `A,B,C` and `isActive` `true`. -/
def sampleSchedule : ScheduleArgs :=
  { routeNumber := "R1", routeName := "Coast", registrationNumber := "NB-1", operatorName := "Op",
    busType := "Luxury", ticketPrice := "500", capacity := "40", availableSeats := "40",
    departurePoint := "A", departureTime := "08:00", arrivalPoint := "C", arrivalTime := "10:00",
    stops := "A,B,C", startDate := "2025-01-01", endDate := "2025-12-31", scheduleToken := "S1",
    isActive := "true" }

/-! ## General facts about the embedding -/

/-- Nothing escapes the `try`/`catch` of a remote command. -/
theorem tryCall_threw (s : State) (http : Http) (tag : String) (req : Except TypeError Request)
    (success : Json → State × List Event × Option TypeError) :
    (tryCall s http tag req success).threw = none := by
  unfold tryCall
  split
  · rfl
  · split
    · rfl
    · split <;> rfl

/-- A remote command whose success branch keeps the state keeps the state. -/
theorem tryCall_state (s : State) (http : Http) (tag : String) (req : Except TypeError Request)
    (success : Json → State × List Event × Option TypeError)
    (h : ∀ d, (success d).1 = s) : (tryCall s http tag req success).state = s := by
  unfold tryCall
  split
  · rfl
  · split
    · rfl
    · rename_i data _
      have hd := h data
      split <;> rename_i heq <;> rw [heq] at hd <;> exact hd

/-! ## C1: no session, no request -/

/-- C1: every command that requires authentication, run with any arguments
when the session file is absent (the loaded session is `null`), prints one
local precondition error with `console.error`, issues no HTTP request, raises
nothing and leaves the state as it was. -/
theorem C1_no_session_no_request (c : Command) (http : Http) (h : c.requiresAuth = true) :
    (startup none).loggedInUser = .null ∧
    (∃ msg, run c none http = ⟨startup none, [.error [text msg]], none⟩ ∧
      preconditionError msg = true) ∧
    requests (run c none http).trace = [] := by
  refine ⟨rfl, ?_, ?_⟩
  · cases c <;> first | exact ⟨_, rfl, rfl⟩ | (simp [Command.requiresAuth] at h)
  · cases c <;> first | rfl | (simp [Command.requiresAuth] at h)

/-- C1 at `view-routes` with no session file. -/
theorem C1_no_session_no_request_witness :
    (Command.viewRoutes).requiresAuth = true ∧
    (∃ msg, run .viewRoutes none httpAdmin = ⟨startup none, [.error [text msg]], none⟩ ∧
      preconditionError msg = true) ∧
    requests (run .viewRoutes none httpAdmin).trace = [] :=
  ⟨rfl, (C1_no_session_no_request .viewRoutes httpAdmin rfl).2⟩

/-! ## C2: the Admin gate -/

/-- Strict equality with a string literal holds for that string only. -/
theorem strictEqStr_eq_true (v : Option Json) (lit : String) :
    strictEqStr v lit = true ↔ v = some (.str lit) := by
  unfold strictEqStr
  split
  · simp
  · rename_i hne
    constructor
    · intro h; cases h
    · intro h; exact absurd h (hne lit)

/-- A value with a `role` property is an object, hence truthy. -/
theorem truthy_of_member_role (u v : Json) (h : member u "role" = some v) : truthy u = true := by
  cases u <;> first | rfl | simp [member] at h

/-- The gate `!isAdmin()` lets a command through exactly when the loaded value
has the property `role` equal to the string `Admin`. -/
theorem truthy_isAdmin_iff (s : State) :
    truthy (isAdmin s) = true ↔ member s.loggedInUser "role" = some (.str "Admin") := by
  unfold isAdmin
  by_cases ht : truthy s.loggedInUser = true
  · rw [if_pos ht]
    exact strictEqStr_eq_true _ _
  · rw [if_neg ht]
    constructor
    · intro h; exact absurd h ht
    · intro h; exact absurd (truthy_of_member_role _ _ h) ht

/-- C2: `isAdmin()` is `true` iff a session is present (the loaded value is
truthy) and its `role` is exactly the string `Admin`; and every Admin-gated
command, run with any arguments on a persisted session whose `role` is not
exactly `Admin` (whatever its token), prints one local precondition error,
issues no HTTP request and leaves the state as it was. -/
theorem C2_admin_gate (c : Command) (u : Json) (http : Http) (hc : c.adminGated = true)
    (hrole : member u "role" ≠ some (.str "Admin")) :
    (∀ s : State, isAdmin s = .bool true ↔
      (truthy s.loggedInUser = true ∧ member s.loggedInUser "role" = some (.str "Admin"))) ∧
    (∃ msg, run c (some (.json u)) http =
      ⟨startup (some (.json u)), [.error [text msg]], none⟩ ∧ preconditionError msg = true) ∧
    requests (run c (some (.json u)) http).trace = [] := by
  have hg : (!truthy (isAdmin (startup (some (.json u))))) = true := by
    have h := (truthy_isAdmin_iff (startup (some (.json u)))).not.mpr hrole
    simpa using h
  refine ⟨?_, ?_, ?_⟩
  · intro s
    unfold isAdmin
    by_cases ht : truthy s.loggedInUser = true
    · rw [if_pos ht]
      simp only [Json.bool.injEq, ht, true_and]
      exact strictEqStr_eq_true _ _
    · rw [if_neg ht]
      constructor
      · intro h; rw [h] at ht; exact absurd rfl ht
      · intro h; exact absurd h.1 ht
  · cases c <;> first
      | (exfalso; simp [Command.adminGated] at hc; done)
      | (apply Exists.intro
         simp only [run, exec, addTransportRoute, viewRoutes, addBus, viewBusesWithRoutes, hg,
           if_true]
         exact ⟨rfl, rfl⟩)
  · cases c <;> first
      | (exfalso; simp [Command.adminGated] at hc; done)
      | simp only [run, exec, addTransportRoute, viewRoutes, addBus,
          viewBusesWithRoutes, hg, if_true, requests]

/-- C2 at `add-bus` with a persisted Operator session and with a session whose
role is spelled `admin`. -/
theorem C2_admin_gate_witness :
    requests (run (.addBus "7" "d" "c" "o" "t" "40" "10" "40" "NB-1" "R1")
      (some (.json operatorSession.toJson)) httpAdmin).trace = [] ∧
    requests (run .viewRoutes (some (.json (.obj [("role", .str "admin"), ("token", .str "t")])))
      httpAdmin).trace = [] :=
  ⟨(C2_admin_gate (.addBus "7" "d" "c" "o" "t" "40" "10" "40" "NB-1" "R1")
      operatorSession.toJson httpAdmin rfl (by simp [member, Session.toJson, strFields,
        operatorSession, List.lookup])).2.2,
   (C2_admin_gate .viewRoutes (.obj [("role", .str "admin"), ("token", .str "t")]) httpAdmin rfl
      (by simp [member, List.lookup])).2.2⟩

/-! ## Requests of a remote command -/

/-- The requests of a concatenated trace. -/
theorem requests_append (xs ys : List Event) :
    requests (xs ++ ys) = requests xs ++ requests ys := by
  induction xs with
  | nil => rfl
  | cons x xs ih => cases x <;> simp [requests, ih]

/-- Printing the items of an array issues no request. -/
theorem requests_forEachItems (line : Nat → Json → Except TypeError String) (items : List Json)
    (i : Nat) : requests (forEachItems line items i).1 = [] := by
  induction items generalizing i with
  | nil => rfl
  | cons x xs ih =>
    unfold forEachItems
    split
    · rfl
    · have h := ih (i + 1)
      split
      rename_i heq
      rw [heq] at h
      simpa [requests] using h

/-- The call `forEach` issues no request. -/
theorem requests_forEach (callee : String) (v : Json)
    (line : Nat → Json → Except TypeError String) : requests (forEach callee v line).1 = [] := by
  unfold forEach
  split
  · exact requests_forEachItems _ _ _
  · rfl
  · rfl

/-- A remote command issues the request it built, once, and no other, when its
success branch issues none. -/
theorem tryCall_requests (s : State) (http : Http) (tag : String)
    (req : Except TypeError Request) (success : Json → State × List Event × Option TypeError)
    (h : ∀ d, requests (success d).2.1 = []) :
    requests (tryCall s http tag req success).trace =
      (match req with
       | .ok r => [r]
       | .error _ => []) := by
  unfold tryCall
  split
  · rfl
  · split
    · rfl
    · rename_i data _
      have hd := h data
      split <;> rename_i heq <;> rw [heq] at hd <;>
        simp [requests, requests_append, hd]

/-- The header built from a session whose token is a string. -/
theorem bearer_of_token (s : State) (t : String)
    (h : member s.loggedInUser "token" = some (.str t)) : bearer s = .ok ("Bearer " ++ t) := by
  unfold bearer getProp
  cases hu : s.loggedInUser <;> rw [hu] at h <;> simp [member] at h
  simp [member, h, toStrVal, toStr]

/-! ## C3: the body of `add-schedule` -/

/-- The accumulator of `String.intercalate` comes first in its result. -/
theorem intercalate_go_eq (sep : String) (l : List String) (acc : String) :
    String.intercalate.go acc sep l = acc ++ String.intercalate.go "" sep l := by
  induction l generalizing acc with
  | nil => simp [String.intercalate.go]
  | cons a as ih =>
    simp only [String.intercalate.go]
    rw [ih (acc ++ sep ++ a), ih ("" ++ sep ++ a)]
    simp [String.append_assoc]

/-- Joining at least two pieces: the first, the separator, the rest joined. -/
theorem intercalate_cons_cons (sep a b : String) (bs : List String) :
    String.intercalate sep (a :: b :: bs) = a ++ sep ++ String.intercalate sep (b :: bs) := by
  simp only [String.intercalate, String.intercalate.go]
  rw [intercalate_go_eq sep bs (a ++ sep ++ b), intercalate_go_eq sep bs b]
  simp [String.append_assoc]

/-- A split has at least one piece. -/
theorem splitChars_ne_nil (sep : Char) (l : List Char) : splitChars sep l ≠ [] := by
  cases l with
  | nil => simp [splitChars]
  | cons c cs =>
    unfold splitChars
    split
    · simp
    · split <;> simp

/-- No piece of a split contains the separator. -/
theorem splitChars_no_sep (sep : Char) (l : List Char) :
    ∀ p ∈ splitChars sep l, sep ∉ p := by
  induction l with
  | nil => simp [splitChars]
  | cons c cs ih =>
    unfold splitChars
    split
    · intro p hp
      rcases List.mem_cons.mp hp with h | h
      · subst h; simp
      · exact ih p h
    · rename_i hc
      split
      · intro p hp
        simp only [List.mem_singleton] at hp
        subst hp
        simpa using Ne.symm hc
      · rename_i q qs heq
        intro p hp
        rw [heq] at ih
        rcases List.mem_cons.mp hp with h | h
        · subst h
          have hq := ih q (List.mem_cons_self _ _)
          simp only [List.mem_cons, not_or]
          exact ⟨Ne.symm hc, hq⟩
        · exact ih p (List.mem_cons_of_mem _ h)

/-- Joining the pieces of a split with the separator gives the text back. -/
theorem intercalate_splitChars (sep : Char) (l : List Char) :
    String.intercalate (String.singleton sep) ((splitChars sep l).map String.mk) =
      String.mk l := by
  induction l with
  | nil => rfl
  | cons c cs ih =>
    unfold splitChars
    split
    · rename_i hc
      subst hc
      cases hsp : splitChars c cs with
      | nil => exact absurd hsp (splitChars_ne_nil _ _)
      | cons q qs =>
        rw [hsp] at ih
        simp only [List.map_cons] at ih ⊢
        rw [intercalate_cons_cons, ih]
        apply String.ext
        simp [String.singleton]
    · split
      · rename_i heq
        exact absurd heq (splitChars_ne_nil _ _)
      · rename_i q qs heq
        rw [heq] at ih
        cases qs with
        | nil =>
          simp only [List.map_cons, List.map_nil, String.intercalate,
            String.intercalate.go] at ih ⊢
          have hd := congrArg String.data ih
          simp only at hd
          rw [hd]
        | cons r rs =>
          simp only [List.map_cons] at ih ⊢
          rw [intercalate_cons_cons] at ih ⊢
          apply String.ext
          have hd := congrArg String.data ih
          simp only [String.data_append] at hd ⊢
          simp [← hd]

/-- The call `s.split(',')` followed by `join(',')` gives `s` back. -/
theorem intercalate_split (s : String) : String.intercalate "," (split ',' s) = s :=
  intercalate_splitChars ',' s.data

/-- C3: for every logged-in session and all arguments, every request
`add-schedule` issues carries the body built from the arguments (and with a
string token it issues exactly that one POST); in that body `stops` is the
ordered list of the pieces of the stops argument between commas (joining them
with `","` gives the argument back, and no piece contains a comma), and
`isActive` is the boolean `true` iff the argument is exactly the string
`true`, and `false` for every other string. -/
theorem C3_add_schedule_body (a : ScheduleArgs) (s : State) (http : Http)
    (hlogin : notLoggedIn s = false) :
    (∀ r ∈ requests (exec (.addSchedule a) s http).trace, r.data = some (scheduleBody a)) ∧
    (∀ t, member s.loggedInUser "token" = some (.str t) →
      requests (exec (.addSchedule a) s http).trace =
        [{ method := .POST, url := BASE_URL ++ "/operator/schedules",
           data := some (scheduleBody a), params := [],
           authorization := some ("Bearer " ++ t) }]) ∧
    member (scheduleBody a) "stops" = some (.arr ((split ',' a.stops).map Json.str)) ∧
    String.intercalate "," (split ',' a.stops) = a.stops ∧
    (∀ p ∈ split ',' a.stops, ',' ∉ p.data) ∧
    member (scheduleBody a) "isActive" = some (.bool (decide (a.isActive = "true"))) ∧
    (a.isActive ≠ "true" → member (scheduleBody a) "isActive" = some (.bool false)) := by
  have hreq : requests (exec (.addSchedule a) s http).trace =
      (match bearer s with
       | .ok auth => [{ method := .POST, url := BASE_URL ++ "/operator/schedules",
                        data := some (scheduleBody a), params := [],
                        authorization := some auth }]
       | .error _ => []) := by
    simp only [exec, addBusSchedule, hlogin]
    rw [if_neg (by simp), tryCall_requests]
    · cases bearer s <;> rfl
    · intro d; rfl
  refine ⟨?_, ?_, rfl, intercalate_split _, ?_, rfl, ?_⟩
  · intro r hr
    rw [hreq] at hr
    cases hb : bearer s <;> rw [hb] at hr
    · simp at hr
    · simp only [List.mem_singleton] at hr
      rw [hr]
  · intro t ht
    rw [hreq, bearer_of_token s t ht]
  · intro p hp
    simp only [split, List.mem_map] at hp
    obtain ⟨q, hq, rfl⟩ := hp
    exact splitChars_no_sep ',' _ q hq
  · intro hne
    show some (Json.bool (a.isActive == "true")) = _
    simp [hne]

/-- C3 at stops `A,B,C` and isActive `true`, with a persisted session. -/
theorem C3_add_schedule_body_witness :
    notLoggedIn (startup (some (.json adminSession.toJson))) = false ∧
    requests (exec (.addSchedule sampleSchedule) (startup (some (.json adminSession.toJson)))
      httpNull).trace =
        [{ method := .POST, url := BASE_URL ++ "/operator/schedules",
           data := some (scheduleBody sampleSchedule), params := [],
           authorization := some ("Bearer " ++ "tok1") }] ∧
    member (scheduleBody sampleSchedule) "stops" =
      some (.arr ((split ',' "A,B,C").map Json.str)) ∧
    split ',' "A,B,C" = ["A", "B", "C"] ∧
    member (scheduleBody sampleSchedule) "isActive" = some (.bool true) :=
  ⟨rfl,
   (C3_add_schedule_body sampleSchedule (startup (some (.json adminSession.toJson))) httpNull
      rfl).2.1 "tok1" rfl,
   (C3_add_schedule_body sampleSchedule (startup (some (.json adminSession.toJson))) httpNull
      rfl).2.2.1,
   by decide,
   (C3_add_schedule_body sampleSchedule (startup (some (.json adminSession.toJson))) httpNull
      rfl).2.2.2.2.2.1⟩

/-! ## C4: round trip of the session store -/

/-- An object of strings is written and read back unchanged. -/
theorem jsonRoundTripFields_strFields (fs : List (String × String)) :
    jsonRoundTripFields (strFields fs) = strFields fs := by
  induction fs with
  | nil => rfl
  | cons kv fs ih =>
    simp only [strFields, List.map_cons, jsonRoundTripFields, jsonRoundTrip] at ih ⊢
    rw [ih]

/-- A session object is written and read back unchanged. -/
theorem jsonRoundTrip_session (x : Session) : jsonRoundTrip x.toJson = x.toJson := by
  simp only [Session.toJson, jsonRoundTrip, jsonRoundTripFields_strFields]

/-- C4: for every session (name, email, role, token) and whatever the file held
before, `saveLoggedInUser` leaves the file holding exactly that session, and
the load at the start of the next process returns a session equal to it in
every field. -/
theorem C4_session_round_trip (x : Session) (s : State) :
    (saveLoggedInUser x.toJson s).AUTH_FILE = some (.json x.toJson) ∧
    (saveLoggedInUser x.toJson s).loggedInUser = x.toJson ∧
    loadLoggedInUser (saveLoggedInUser x.toJson s).AUTH_FILE = x.toJson ∧
    member (loadLoggedInUser (saveLoggedInUser x.toJson s).AUTH_FILE) "name" =
      some (.str x.name) ∧
    member (loadLoggedInUser (saveLoggedInUser x.toJson s).AUTH_FILE) "email" =
      some (.str x.email) ∧
    member (loadLoggedInUser (saveLoggedInUser x.toJson s).AUTH_FILE) "role" =
      some (.str x.role) ∧
    member (loadLoggedInUser (saveLoggedInUser x.toJson s).AUTH_FILE) "token" =
      some (.str x.token) := by
  have hfile : (saveLoggedInUser x.toJson s).AUTH_FILE = some (.json x.toJson) := by
    simp only [saveLoggedInUser, writeJsonSync, jsonRoundTrip_session]
  have hload : loadLoggedInUser (saveLoggedInUser x.toJson s).AUTH_FILE = x.toJson := by
    rw [hfile]; rfl
  refine ⟨hfile, rfl, hload, ?_, ?_, ?_, ?_⟩ <;> rw [hload] <;> rfl

/-! ## C5: notes are kept and shown in insertion order -/

/-- A list of strings is written and read back unchanged. -/
theorem jsonRoundTripItems_strs (ns : List String) :
    jsonRoundTripItems (ns.map Json.str) = ns.map Json.str := by
  induction ns with
  | nil => rfl
  | cons n ns ih => simp only [List.map_cons, jsonRoundTripItems, jsonRoundTrip, ih]

/-- Adding a note to a file that holds a list of notes appends it. -/
theorem addNote_file (ms : List String) (n : String) (http : Http) :
    (run (.addNote n) (some (.json (.arr (ms.map Json.str)))) http).state.AUTH_FILE =
      some (.json (.arr ((ms ++ [n]).map Json.str))) := by
  have h : ms.map Json.str ++ [Json.str n] = (ms ++ [n]).map Json.str := by simp
  simp only [run, exec, addNote, loadNotes, startup, readJsonSync, truthy, if_true, saveNotes,
    writeJsonSync, jsonRoundTrip, h, jsonRoundTripItems_strs]

/-- Adding notes one after the other to a file that holds a list of notes. -/
theorem fileAfter_addNotes (ns ms : List String) (http : Http) :
    fileAfter (ns.map Command.addNote) (some (.json (.arr (ms.map Json.str)))) http =
      some (.json (.arr ((ms ++ ns).map Json.str))) := by
  induction ns generalizing ms with
  | nil => simp [fileAfter]
  | cons n ns ih =>
    have h := ih (ms ++ [n])
    simp only [fileAfter, List.map_cons, List.foldl_cons] at h ⊢
    rw [addNote_file, h]
    simp

/-- The line of a note that is a string. -/
theorem noteLine_str (i : Nat) (n : String) :
    noteLine i (.str n) = .ok (toString (i + 1) ++ ". " ++ n) := by
  simp [noteLine, template, toStr, String.append_assoc]

/-- Printing a list of notes that are strings: one numbered line per note. -/
theorem forEachItems_notes (ns : List String) (i : Nat) :
    forEachItems noteLine (ns.map Json.str) i =
      ((ns.enumFrom i).map (fun p => Event.log [text (toString (p.1 + 1) ++ ". " ++ p.2)]),
       none) := by
  induction ns generalizing i with
  | nil => rfl
  | cons n ns ih =>
    simp only [List.map_cons, forEachItems, noteLine_str, ih (i + 1), List.enumFrom_cons]

/-- C5: starting with no persisted file, after `add-note n1`, ..., `add-note nk`
(each in a process of its own) the file holds exactly `[n1, ..., nk]` in that
order, and `view-notes` raises nothing and prints `Notes:` followed by the
lines `i. ni` for `i = 1..k` in insertion order; when `k = 0` it prints
`No notes available.` instead. -/
theorem C5_notes_fifo (ns : List String) (http : Http) :
    fileAfter (ns.map Command.addNote) none http =
      (if ns = [] then none else some (.json (.arr (ns.map Json.str)))) ∧
    (run .viewNotes (fileAfter (ns.map Command.addNote) none http) http).threw = none ∧
    (run .viewNotes (fileAfter (ns.map Command.addNote) none http) http).trace =
      (if ns = [] then [.log [text "No notes available."]]
       else .log [text "Notes:"] ::
         ns.enum.map (fun p => Event.log [text (toString (p.1 + 1) ++ ". " ++ p.2)])) := by
  cases ns with
  | nil => exact ⟨rfl, rfl, rfl⟩
  | cons n ns =>
    have hfile : fileAfter ((n :: ns).map Command.addNote) none http =
        some (.json (.arr ((n :: ns).map Json.str))) := by
      have h := fileAfter_addNotes ns [n] http
      have h0 : (run (.addNote n) none http).state.AUTH_FILE =
          some (.json (.arr ([n].map Json.str))) := rfl
      simp only [fileAfter, List.map_cons, List.foldl_cons] at h ⊢
      rw [h0]
      simpa using h
    have hview : run .viewNotes (some (.json (.arr ((n :: ns).map Json.str)))) http =
        ⟨startup (some (.json (.arr ((n :: ns).map Json.str)))),
         .log [text "Notes:"] ::
           (n :: ns).enum.map (fun p => Event.log [text (toString (p.1 + 1) ++ ". " ++ p.2)]),
         none⟩ := by
      simp only [run, exec, viewNotes, loadNotes, startup, readJsonSync, truthy, if_true,
        lengthPositive, forEach, forEachItems_notes, List.enum]
      simp
    rw [hfile, hview]
    simp

/-- C5 at two notes: `add-note one`, `add-note two`, then `view-notes`. -/
theorem C5_notes_fifo_witness :
    fileAfter [.addNote "one", .addNote "two"] none httpNull =
      some (.json (.arr [.str "one", .str "two"])) ∧
    (run .viewNotes (fileAfter [.addNote "one", .addNote "two"] none httpNull) httpNull).trace =
      [.log [text "Notes:"], .log [text "1. one"], .log [text "2. two"]] :=
  ⟨(C5_notes_fifo ["one", "two"] httpNull).1, (C5_notes_fifo ["one", "two"] httpNull).2.2⟩

/-! ## C6: the token of the login response is the bearer of `view-routes` -/

/-- Writing and reading back an object keeps each property, written and read
back. -/
theorem lookup_jsonRoundTripFields (k : String) (fs : List (String × Json)) :
    (jsonRoundTripFields fs).lookup k = (fs.lookup k).map jsonRoundTrip := by
  induction fs with
  | nil => rfl
  | cons kv fs ih =>
    obtain ⟨k', v⟩ := kv
    simp only [jsonRoundTripFields, List.lookup]
    split <;> simp_all

/-- A string property of a value survives the write to the file. -/
theorem member_jsonRoundTrip_str (u : Json) (k t : String) (hk : k ≠ "length")
    (h : member u k = some (.str t)) : member (jsonRoundTrip u) k = some (.str t) := by
  cases u <;> simp [member, hk] at h
  case obj fields =>
    simp only [jsonRoundTrip, member, lookup_jsonRoundTripFields, h, Option.map_some',
      jsonRoundTrip]

/-- What `view-routes` requests once the session is an Admin with a string
token. -/
theorem viewRoutes_requests (s : State) (http : Http) (t : String)
    (hrole : member s.loggedInUser "role" = some (.str "Admin"))
    (htoken : member s.loggedInUser "token" = some (.str t)) :
    requests (viewRoutes s http).trace =
      [{ method := .GET, url := BASE_URL ++ "/admin/routes", data := none, params := [],
         authorization := some ("Bearer " ++ t) }] := by
  have hg : truthy (isAdmin s) = true := (truthy_isAdmin_iff s).mpr hrole
  simp only [viewRoutes, hg]
  rw [if_neg (by simp), tryCall_requests, bearer_of_token s t htoken]
  intro d
  simpa [requests] using requests_forEach "response.data.forEach" d routeLine

/-- C6: when the login call succeeds with a response whose `role` is `Admin`
and whose `token` is the string `t`, a `view-routes` run right after, in the
same process or in a freshly started one, issues exactly one request: a GET to
`/admin/routes` with the header `Authorization: Bearer t`. -/
theorem C6_login_then_view_routes (email password t : String) (data : Json) (s : State)
    (http http' : Http) (hlogin : http (loginRequest email password) = .ok data)
    (hrole : member data "role" = some (.str "Admin"))
    (htoken : member data "token" = some (.str t)) :
    requests (exec .viewRoutes (exec (.login email password) s http).state http').trace =
      [{ method := .GET, url := BASE_URL ++ "/admin/routes", data := none, params := [],
         authorization := some ("Bearer " ++ t) }] ∧
    requests (run .viewRoutes (exec (.login email password) s http).state.AUTH_FILE http').trace =
      [{ method := .GET, url := BASE_URL ++ "/admin/routes", data := none, params := [],
         authorization := some ("Bearer " ++ t) }] := by
  have hstate : (exec (.login email password) s http).state = saveLoggedInUser data s := by
    simp only [exec, loginUser, tryCall, hlogin]
  rw [hstate]
  constructor
  · exact viewRoutes_requests _ _ t hrole htoken
  · exact viewRoutes_requests _ _ t
      (member_jsonRoundTrip_str data "role" "Admin" (by decide) hrole)
      (member_jsonRoundTrip_str data "token" t (by decide) htoken)

/-- C6 at the Admin session returned by the sample service. -/
theorem C6_login_then_view_routes_witness :
    httpAdmin (loginRequest "ann@example.com" "pw") = .ok adminSession.toJson ∧
    requests (run .viewRoutes
      (exec (.login "ann@example.com" "pw") (startup none) httpAdmin).state.AUTH_FILE
      httpNull).trace =
      [{ method := .GET, url := BASE_URL ++ "/admin/routes", data := none, params := [],
         authorization := some ("Bearer " ++ "tok1") }] :=
  ⟨rfl, (C6_login_then_view_routes "ann@example.com" "pw" "tok1" adminSession.toJson
      (startup none) httpAdmin httpNull rfl rfl rfl).2⟩

/-! ## C9: what a failed call prints -/

/-- A request event of a trace is one of its requests. -/
theorem mem_requests_of_mem (r : Request) (evs : List Event) (h : Event.request r ∈ evs) :
    r ∈ requests evs := by
  induction evs with
  | nil => simp at h
  | cons x xs ih =>
    rcases List.mem_cons.mp h with h1 | h1
    · subst h1; simp [requests]
    · have h2 := ih h1
      cases x <;> simp [requests, h2]

/-- A remote command whose call is rejected prints the payload of the rejection
after the request, and nothing else. -/
theorem tryCall_failed (s : State) (http : Http) (tag : String)
    (req : Except TypeError Request) (success : Json → State × List Event × Option TypeError)
    (r : Request) (e : HttpError) (hs : ∀ d, requests (success d).2.1 = [])
    (hreq : Event.request r ∈ (tryCall s http tag req success).trace)
    (hfail : http r = .fail e) :
    (tryCall s http tag req success).trace =
      [.request r, .error [text tag, specErrorPayload e]] := by
  have hmem := mem_requests_of_mem r _ hreq
  rw [tryCall_requests s http tag req success hs] at hmem
  cases req with
  | error t => simp at hmem
  | ok r0 =>
    simp only [List.mem_singleton] at hmem
    subst hmem
    simp only [tryCall, hfail]
    rfl

/-- The local commands issue no request. -/
theorem requests_local (c : Command) (s : State) (http : Http) (h : c.isRemote = false) :
    requests (exec c s http).trace = [] := by
  cases c <;> first | (exfalso; simp [Command.isRemote] at h; done) | skip
  · simp only [exec, addNote]
    split <;> rfl
  · simp only [exec, viewNotes]
    split
    · rfl
    · simpa [requests] using requests_forEach "notes.forEach" (loadNotes s) noteLine
    · rfl

/-- C9: when the request `r` a command issued is rejected with `e`, the command
prints, after the request, one `console.error` whose payload is the service's
error payload `error.response.data` when the rejection has a response, and the
transport message `error.message` when it has none; the trace holds nothing
else, so no second request is issued. -/
theorem C9_failed_call_message (c : Command) (s : State) (http : Http) (r : Request)
    (e : HttpError) (hreq : Event.request r ∈ (exec c s http).trace)
    (hfail : http r = .fail e) :
    (∃ tag, (exec c s http).trace = [.request r, .error [text tag, specErrorPayload e]]) ∧
    requests (exec c s http).trace = [r] ∧
    (∀ d, e.response = some d → specErrorPayload e = .value d) ∧
    (e.response = none → specErrorPayload e = .value (.str e.message)) := by
  have key : ∃ tag, (exec c s http).trace =
      [.request r, .error [text tag, specErrorPayload e]] := by
    by_cases hrem : c.isRemote = true
    · cases c <;> first | (exfalso; simp [Command.isRemote] at hrem; done) | skip
      all_goals
        simp only [exec, registerUser, loginUser, addTransportRoute, viewRoutes, addBus,
          viewBusesWithRoutes, viewAvailableBuses, bookBus, addBusSchedule, updateBusSchedule,
          deleteBusSchedule, viewSchedules] at hreq ⊢
      all_goals first
        | exact ⟨_, tryCall_failed _ _ _ _ _ r e (fun _ => rfl) hreq hfail⟩
        | (split at hreq
           · simp at hreq
           · rename_i hg
             rw [if_neg hg]
             exact ⟨_, tryCall_failed _ _ _ _ _ r e
               (by intro d; first | rfl | simpa [requests] using requests_forEach _ d _)
               hreq hfail⟩)
    · have h0 := requests_local c s http (by simpa using hrem)
      have h1 := mem_requests_of_mem r _ hreq
      rw [h0] at h1
      simp at h1
  refine ⟨key, ?_, ?_, ?_⟩
  · obtain ⟨tag, h⟩ := key
    rw [h]; rfl
  · intro d hd; simp [specErrorPayload, hd]
  · intro hd; simp [specErrorPayload, hd]

/-- C9 at `book-bus` with a persisted session and a transport that is down. -/
theorem C9_failed_call_message_witness :
    (∃ tag, (run (.bookBus "B1" "Ann" "2" "2025-01-01" "S1" "K1")
        (some (.json adminSession.toJson)) httpDown).trace =
      [.request { method := .POST, url := BASE_URL ++ "/commuter/bookbus",
                  data := some (.obj (strFields
                    [("bookingNumber", "B1"), ("userName", "Ann"), ("seatCount", "2"),
                     ("bookingDate", "2025-01-01"), ("scheduleToken", "S1"),
                     ("bookingToken", "K1")])),
                  params := [], authorization := some "Bearer tok1" },
       .error [text tag, .value (.str "Network Error")]]) :=
  (C9_failed_call_message (.bookBus "B1" "Ann" "2" "2025-01-01" "S1" "K1")
    (startup (some (.json adminSession.toJson))) httpDown
    { method := .POST, url := BASE_URL ++ "/commuter/bookbus",
      data := some (.obj (strFields
        [("bookingNumber", "B1"), ("userName", "Ann"), ("seatCount", "2"),
         ("bookingDate", "2025-01-01"), ("scheduleToken", "S1"), ("bookingToken", "K1")])),
      params := [], authorization := some "Bearer tok1" }
    { response := none, message := "Network Error" }
    (List.mem_cons_self _ _) rfl).1

/-! ## C10: only a successful login changes the session -/

/-- C10: a remote command leaves the persisted file and the in-memory session
exactly as they were, whether its local gate rejects it, its call fails or its
call succeeds, unless it is a `login` whose call succeeds; a `login` whose call
succeeds with `data` makes `data` the in-memory session and the content of the
file. -/
theorem C10_only_login_persists (c : Command) (s : State) (http : Http)
    (hremote : c.isRemote = true) :
    ((∀ email password, c = .login email password →
        ∃ e, http (loginRequest email password) = .fail e) →
      (exec c s http).state = s) ∧
    (∀ email password data, c = .login email password →
      http (loginRequest email password) = .ok data →
      (exec c s http).state =
        { AUTH_FILE := some (.json (jsonRoundTrip data)), loggedInUser := data }) := by
  constructor
  · intro hlogin
    cases c <;> first | (exfalso; simp [Command.isRemote] at hremote; done) | skip
    case login email password =>
      obtain ⟨e, he⟩ := hlogin email password rfl
      simp only [exec, loginUser, tryCall, he]
    all_goals
      simp only [exec, registerUser, addTransportRoute, viewRoutes, addBus,
        viewBusesWithRoutes, viewAvailableBuses, bookBus, addBusSchedule, updateBusSchedule,
        deleteBusSchedule, viewSchedules]
    all_goals first
      | exact tryCall_state _ _ _ _ _ (fun _ => rfl)
      | (split
         · rfl
         · exact tryCall_state _ _ _ _ _ (fun _ => rfl))
  · intro email password data hc hok
    subst hc
    simp only [exec, loginUser, tryCall, hok, saveLoggedInUser, writeJsonSync]

/-- C10 at a `login` that fails, a `view-schedules` that succeeds and an
`add-route` rejected by the gate, on a state that holds an Operator session. -/
theorem C10_only_login_persists_witness :
    (exec (.login "bob@example.com" "pw") (startup (some (.json operatorSession.toJson)))
      httpDown).state = startup (some (.json operatorSession.toJson)) ∧
    (exec .viewSchedules (startup (some (.json operatorSession.toJson))) httpAdmin).state =
      startup (some (.json operatorSession.toJson)) ∧
    (exec (.routes "R1" "Coast" "A" "C" "12") (startup (some (.json operatorSession.toJson)))
      httpAdmin).state = startup (some (.json operatorSession.toJson)) :=
  ⟨(C10_only_login_persists (.login "bob@example.com" "pw")
      (startup (some (.json operatorSession.toJson))) httpDown rfl).1
      (fun _ _ _ => ⟨_, rfl⟩),
   (C10_only_login_persists .viewSchedules
      (startup (some (.json operatorSession.toJson))) httpAdmin rfl).1
      (fun _ _ h => nomatch h),
   (C10_only_login_persists (.routes "R1" "Coast" "A" "C" "12")
      (startup (some (.json operatorSession.toJson))) httpAdmin rfl).1
      (fun _ _ h => nomatch h)⟩

/-! ## C7: the registered commands and their endpoints -/

/-- The names of the fourteen registrations. -/
theorem registeredNames_eq :
    registeredNames =
      ["register", "login", "routes", "view-routes", "add-bus", "view-buses",
       "view-available-buses", "book-bus", "add-schedule", "update-schedule",
       "delete-schedule", "view-schedules", "add-note", "view-notes"] := by
  decide

/-- An action is called only for a registered name. -/
theorem program_action_registered (n : String) (args : List String) (c : Command)
    (h : program (n :: args) = .action c) : n ∈ registeredNames := by
  simp only [program] at h
  split at h
  · cases h
  · split at h
    · rename_i declaration hfind
      have hmem := List.mem_of_find?_eq_some hfind
      have hname := List.find?_some hfind
      simp only [beq_iff_eq] at hname
      exact List.mem_map.mpr ⟨declaration, hmem, hname⟩
    · split at h <;> cases h

/-- The command line `routes a1 .. a5` calls `addTransportRoute` with the five
words when none of them looks like an option. -/
theorem program_routes (a1 a2 a3 a4 a5 : String)
    (h : [a1, a2, a3, a4, a5].any looksLikeOption = false) :
    program ["routes", a1, a2, a3, a4, a5] = .action (.routes a1 a2 a3 a4 a5) := by
  have hfind : registrations.find? (fun d => commandName d == "routes") =
      some "routes <routeNumber> <routeName> <startingPoint> <endingPoint> <distance>" := by
    decide
  have hopt : looksLikeOption "routes" = false := by decide
  simp only [program, hopt, hfind, h]
  rfl

/-- The command line `add-bus a1 .. a10` calls `addBus` with the ten words when
none of them looks like an option. -/
theorem program_add_bus (a1 a2 a3 a4 a5 a6 a7 a8 a9 a10 : String)
    (h : [a1, a2, a3, a4, a5, a6, a7, a8, a9, a10].any looksLikeOption = false) :
    program ["add-bus", a1, a2, a3, a4, a5, a6, a7, a8, a9, a10] =
      .action (.addBus a1 a2 a3 a4 a5 a6 a7 a8 a9 a10) := by
  have hfind : registrations.find? (fun d => commandName d == "add-bus") =
      some "add-bus <busNumber> <driverName> <conductorName> <operatorName> <bustype> <capacity> <price> <availableSeats> <registrationNumber> <routeNumber>" := by
    decide
  have hopt : looksLikeOption "add-bus" = false := by decide
  simp only [program, hopt, hfind, h]
  rfl

/-- What the embedding says of `commander`'s own handling: `help` and the empty
command line print the usage, and a word that looks like an option hands the
line over to `commander`; no action is called there by the embedding. -/
theorem program_help_and_options :
    program [] = .help ∧
    program ["help"] = .help ∧
    program ["delete-schedule", "-x"] = .framework ∧
    program ["routes", "--help", "b", "c", "d", "e"] = .framework ∧
    program ["--help"] = .framework ∧
    program ["view-routes", "extra"] = .framework ∧
    program ["delete-schedule", "S1"] = .action (.deleteSchedule "S1") := by
  decide

/-- Every registration, followed by as many plain words as it declares, calls
an action. -/
theorem program_registrations_call :
    registrations.all (fun d =>
      match program (commandName d :: List.replicate (declaredArity d) "x") with
      | .action _ => true
      | _ => false) = true := by
  decide

/-- C7, as stated, fails: the table's `add-route` is not among the names the
code registers, so the program treats it as an unknown command whatever the
arguments, while `routes`, which the table does not name, is registered and
calls its action; and a session that is present but has no token does not let
`book-bus` issue its request. -/
theorem C7_counterexample :
    "add-route" ∈ specCommandTable ∧
    "add-route" ∉ registeredNames ∧
    (∀ args, program ("add-route" :: args) = .unknownCommand) ∧
    "routes" ∉ specCommandTable ∧
    "routes" ∈ registeredNames ∧
    program ["routes", "R1", "Coast", "A", "C", "12"] =
      .action (.routes "R1" "Coast" "A" "C" "12") ∧
    truthy (startup (some (.json (.obj [("name", .str "Ann")])))).loggedInUser = true ∧
    requests (run (.bookBus "B1" "Ann" "2" "2025-01-01" "S1" "K1")
      (some (.json (.obj [("name", .str "Ann")]))) httpNull).trace = [] := by
  refine ⟨by decide, by decide, ?_, by decide, by decide, by decide, rfl, rfl⟩
  intro args
  have hfind : registrations.find? (fun d => commandName d == "add-route") = none := by
    decide
  have hopt : looksLikeOption "add-route" = false := by decide
  simp only [program, hopt, hfind]
  rfl

/-- C7, amended: the commands the code registers with `program.command` are
exactly `register`, `login`, `routes`, `view-routes`, `add-bus`, `view-buses`,
`view-available-buses`, `book-bus`, `add-schedule`, `update-schedule`,
`delete-schedule`, `view-schedules`, `add-note` and `view-notes` (the table's
names with `routes` in place of `add-route`); `routes` and `add-bus`, followed
by their declared arguments none of which looks like an option, call
`addTransportRoute` and `addBus`; and each remote command, when the gate the
code puts before it is open (`isAdmin()` for the Admin commands, a session
with a truthy token for the others that need a login) and the `Authorization`
header can be built (it always can from a string token), issues exactly one
request, with the method and path the table lists: `routes` issues POST
`/admin/routes` and `add-bus` issues POST `/admin/buses`. -/
theorem C7_commands_and_endpoints (c : Command) (s : State) (http : Http)
    (hremote : c.isRemote = true) (hgate : c.gateOpen s = true)
    (hauth : c.requiresAuth = true → ∃ auth, bearer s = .ok auth) :
    registeredNames =
      ["register", "login", "routes", "view-routes", "add-bus", "view-buses",
       "view-available-buses", "book-bus", "add-schedule", "update-schedule",
       "delete-schedule", "view-schedules", "add-note", "view-notes"] ∧
    registeredNames = specCommandTable.map (fun n => if n = "add-route" then "routes" else n) ∧
    (∃ r path, requests (exec c s http).trace = [r] ∧
      specEndpoint c = some (r.method, path) ∧ r.url = BASE_URL ++ path) ∧
    (∀ a1 a2 a3 a4 a5, [a1, a2, a3, a4, a5].any looksLikeOption = false →
      program ["routes", a1, a2, a3, a4, a5] = .action (.routes a1 a2 a3 a4 a5)) ∧
    (∀ a1 a2 a3 a4 a5,
      specEndpoint (.routes a1 a2 a3 a4 a5) = some (.POST, "/admin/routes")) ∧
    (∀ a1 a2 a3 a4 a5 a6 a7 a8 a9 a10,
      [a1, a2, a3, a4, a5, a6, a7, a8, a9, a10].any looksLikeOption = false →
      program ["add-bus", a1, a2, a3, a4, a5, a6, a7, a8, a9, a10] =
        .action (.addBus a1 a2 a3 a4 a5 a6 a7 a8 a9 a10)) ∧
    (∀ a1 a2 a3 a4 a5 a6 a7 a8 a9 a10,
      specEndpoint (.addBus a1 a2 a3 a4 a5 a6 a7 a8 a9 a10) = some (.POST, "/admin/buses")) ∧
    (∀ t, member s.loggedInUser "token" = some (.str t) → bearer s = .ok ("Bearer " ++ t)) := by
  refine ⟨registeredNames_eq, by decide, ?_, program_routes, fun _ _ _ _ _ => rfl,
    program_add_bus, fun _ _ _ _ _ _ _ _ _ _ => rfl, fun t ht => bearer_of_token s t ht⟩
  cases c <;> first | (exfalso; simp [Command.isRemote] at hremote; done) | skip
  all_goals first
    | (simp only [exec, registerUser, loginUser, viewSchedules]
       rw [tryCall_requests]
       · exact ⟨_, _, rfl, rfl, rfl⟩
       · intro d; rfl)
    | (have hg := hgate
       simp [Command.gateOpen, Command.adminGated, Command.requiresAuth] at hg
       obtain ⟨auth, ha⟩ := hauth rfl
       simp only [exec, addTransportRoute, viewRoutes, addBus, viewBusesWithRoutes,
         viewAvailableBuses, bookBus, addBusSchedule, updateBusSchedule, deleteBusSchedule, hg]
       rw [if_neg (by simp), tryCall_requests, ha]
       · exact ⟨_, _, rfl, rfl, rfl⟩
       · intro d
         first | rfl | simpa [requests] using requests_forEach _ d _)

/-- C7 (amended) at `routes` and at `add-bus` with a persisted Admin session. -/
theorem C7_commands_and_endpoints_witness :
    program ["routes", "R1", "Coast", "A", "C", "12"] =
      .action (.routes "R1" "Coast" "A" "C" "12") ∧
    (∃ r path, requests (run (.routes "R1" "Coast" "A" "C" "12")
        (some (.json adminSession.toJson)) httpNull).trace = [r] ∧
      specEndpoint (.routes "R1" "Coast" "A" "C" "12") = some (r.method, path) ∧
      r.url = BASE_URL ++ path) ∧
    program ["add-bus", "7", "d", "c", "o", "t", "40", "10", "40", "NB-1", "R1"] =
      .action (.addBus "7" "d" "c" "o" "t" "40" "10" "40" "NB-1" "R1") ∧
    (∃ r path, requests (run (.addBus "7" "d" "c" "o" "t" "40" "10" "40" "NB-1" "R1")
        (some (.json adminSession.toJson)) httpNull).trace = [r] ∧
      specEndpoint (.addBus "7" "d" "c" "o" "t" "40" "10" "40" "NB-1" "R1") =
        some (r.method, path) ∧
      r.url = BASE_URL ++ path) :=
  ⟨(C7_commands_and_endpoints (.routes "R1" "Coast" "A" "C" "12")
      (startup (some (.json adminSession.toJson))) httpNull rfl rfl
      (fun _ => ⟨_, rfl⟩)).2.2.2.1 "R1" "Coast" "A" "C" "12" (by decide),
   (C7_commands_and_endpoints (.routes "R1" "Coast" "A" "C" "12")
      (startup (some (.json adminSession.toJson))) httpNull rfl rfl
      (fun _ => ⟨_, rfl⟩)).2.2.1,
   (C7_commands_and_endpoints (.addBus "7" "d" "c" "o" "t" "40" "10" "40" "NB-1" "R1")
      (startup (some (.json adminSession.toJson))) httpNull rfl rfl
      (fun _ => ⟨_, rfl⟩)).2.2.2.2.2.1 "7" "d" "c" "o" "t" "40" "10" "40" "NB-1" "R1"
      (by decide),
   (C7_commands_and_endpoints (.addBus "7" "d" "c" "o" "t" "40" "10" "40" "NB-1" "R1")
      (startup (some (.json adminSession.toJson))) httpNull rfl rfl
      (fun _ => ⟨_, rfl⟩)).2.2.1⟩
/-! ## C8: what escapes a command -/

/-- Nothing escapes a remote command: its gate cannot raise and its `try`
block catches the rest. -/
theorem exec_remote_threw (c : Command) (s : State) (http : Http)
    (hremote : c.isRemote = true) : (exec c s http).threw = none := by
  cases c <;> first | (exfalso; simp [Command.isRemote] at hremote; done) | skip
  all_goals
    simp only [exec, registerUser, loginUser, addTransportRoute, viewRoutes, addBus,
      viewBusesWithRoutes, viewAvailableBuses, bookBus, addBusSchedule, updateBusSchedule,
      deleteBusSchedule, viewSchedules]
  all_goals first
    | exact tryCall_threw _ _ _ _ _
    | (split
       · rfl
       · exact tryCall_threw _ _ _ _ _)

/-- C8 at the file a successful login leaves: `login` writes the session object
to the file; `add-note hello` then loads that object as the list of notes, and
the `TypeError` of `notes.push` escapes `addNote` before anything is printed,
while `view-notes` on the same file completes and prints
`No notes available.`. -/
theorem C8_add_note_throws_after_login :
    (exec (.login "ann@example.com" "pw") (startup none) httpAdmin).state.AUTH_FILE =
      some (.json adminSession.toJson) ∧
    (run (.addNote "hello") (some (.json adminSession.toJson)) httpNull).threw =
      some (.notAFunction "notes.push") ∧
    (run (.addNote "hello") (some (.json adminSession.toJson)) httpNull).trace = [] ∧
    (run .viewNotes (some (.json adminSession.toJson)) httpNull).threw = none ∧
    (run .viewNotes (some (.json adminSession.toJson)) httpNull).trace =
      [.log [text "No notes available."]] :=
  ⟨rfl, rfl, rfl, rfl, rfl⟩

end APIExhibit
